import Mathlib

/-!
Shallow embedding of the tauri-spy launcher (src/main.rs): the binary
format inspector `validate_target`, the artifact locator `find_libspy`,
the LD_PRELOAD composer, the child-environment composer and the
spawn/exit-status logic of `main`, together with theorems checking the
specification's claims against these definitions.

Filesystem and OS effects are modelled by explicit state records: a
`FileState` carries what the OS calls on the target path observe
(existence, file kind, permission mode, file contents), a `LocWorld`
carries what the locator's calls observe, and a `World` bundles the
whole environment one run of `main` reads.  Fallible reads are `Option`
/ `Except`; an out-of-bounds byte index (a Rust panic) is modelled by
`Option.none` at the result of the whole check, so panic-freedom is the
statement that the result is always `some`.
-/

namespace TauriSpy

/-- Classified validation failures of `validate_target`, one constructor
per distinct error return in the source; `WrongArch` and
`NotExecutableType` carry the observed field value that the source
interpolates into the message. `MetadataFailed` and `ReadFailed` model
the `map_err` returns on `path.metadata()` and `fs::read`. -/
inductive VError where
  | TargetNotFound
  | NotAFile
  | MetadataFailed
  | NotExecutable
  | ReadFailed
  | NotElf
  | Not64Bit
  | WrongArch (observed : Nat)
  | NotExecutableType (observed : Nat)
deriving DecidableEq, Repr

/-- What the inspector's OS calls observe about the target path:
`path.exists()`, `path.is_file()`, `path.metadata()` (the permission
mode when it succeeds), `fs::read(path)` (the bytes when it succeeds). -/
structure FileState where
  pathExists : Bool
  isFile : Bool
  metadataMode : Option Nat
  contents : Option (List Nat)
deriving DecidableEq, Repr

/-- The four ELF magic bytes `\x7fELF`. -/
def elfMagic : List Nat := [0x7F, 0x45, 0x4C, 0x46]

/-- Rust slice `&l[s..e]`: defined exactly when `s ≤ e ≤ l.length`,
out of range is a panic, modelled as `none`. -/
def listSlice (l : List Nat) (s e : Nat) : Option (List Nat) :=
  if s ≤ e ∧ e ≤ l.length then some ((l.take e).drop s) else none

/-- The ELF-header checks of `validate_target` (source lines 64-105),
operating on the bytes `fs::read` returned.  Each indexing operation is
performed through `l[i]?` / `listSlice`, whose `none` (a Rust indexing
panic) aborts the whole computation with `none`. -/
def elfChecks (bytes : List Nat) : Option (Except VError Unit) :=
  if bytes.length < 64 then some (Except.error VError.NotElf)
  else
    match listSlice bytes 0 4 with
    | none => none
    | some magic =>
      if magic ≠ elfMagic then some (Except.error VError.NotElf)
      else
        match bytes[4]? with
        | none => none
        | some cls =>
          if cls ≠ 2 then some (Except.error VError.Not64Bit)
          else
            match bytes[18]?, bytes[19]? with
            | some m0, some m1 =>
              let eMachine := m0 + 256 * m1
              if eMachine ≠ 0x3E then some (Except.error (VError.WrongArch eMachine))
              else
                match bytes[16]?, bytes[17]? with
                | some t0, some t1 =>
                  let eType := t0 + 256 * t1
                  if eType ≠ 2 ∧ eType ≠ 3 then
                    some (Except.error (VError.NotExecutableType eType))
                  else some (Except.ok ())
                | _, _ => none
            | _, _ => none

/-- The function `validate_target` (source lines 45-106) over the observed
`FileState`: existence, regular-file, executable-bit (`mode & 0o111`,
and `0o111 = 73`), then the ELF header checks on the bytes read.
`none` models a panic inside the header parse. -/
def validate_target (f : FileState) : Option (Except VError Unit) :=
  if f.pathExists = false then some (Except.error VError.TargetNotFound)
  else if f.isFile = false then some (Except.error VError.NotAFile)
  else
    match f.metadataMode with
    | none => some (Except.error VError.MetadataFailed)
    | some mode =>
      if Nat.land mode 73 = 0 then some (Except.error VError.NotExecutable)
      else
        match f.contents with
        | none => some (Except.error VError.ReadFailed)
        | some bytes => elfChecks bytes

/-- Little-endian 16-bit read at offset `i`, as the spec describes the
machine and object-type fields (reads are total here because the spec
places them after the length-at-least-64 check). -/
def leU16 (bytes : List Nat) (i : Nat) : Nat :=
  bytes.getD i 0 + 256 * bytes.getD (i + 1) 0

/-- Transcription of the specification's check list for the Binary
Format Inspector (spec section 4.1, steps 1-7), written from the spec's
words to be compared with `validate_target`: fail fast, first violated
check wins, 64-bit class byte at offset 4, machine field LE16 at offset
18 equal to 0x3E, object-type field LE16 at offset 16 in 2 or 3. -/
def inspectorSpec (ex isF : Bool) (mode : Nat) (bytes : List Nat) : Except VError Unit :=
  if ex = false then Except.error VError.TargetNotFound
  else if isF = false then Except.error VError.NotAFile
  else if Nat.land mode 73 = 0 then Except.error VError.NotExecutable
  else if bytes.length < 64 ∨ bytes.take 4 ≠ elfMagic then Except.error VError.NotElf
  else if bytes.getD 4 0 ≠ 2 then Except.error VError.Not64Bit
  else if leU16 bytes 18 ≠ 0x3E then Except.error (VError.WrongArch (leU16 bytes 18))
  else if leU16 bytes 16 ≠ 2 ∧ leU16 bytes 16 ≠ 3 then
    Except.error (VError.NotExecutableType (leU16 bytes 16))
  else Except.ok ()

lemma getElem?_eq_some_getD {l : List Nat} {i : Nat} (h : i < l.length) :
    l[i]? = some (l.getD i 0) := by
  rw [List.getElem?_eq_getElem h]
  simp [List.getD, List.get?_eq_getElem?, List.getElem?_eq_getElem h]

/-- The header checks never hit an out-of-bounds read and agree with the
spec's transcription of steps 4-7. -/
lemma elfChecks_eq (bytes : List Nat) :
    elfChecks bytes = some
      (if bytes.length < 64 ∨ bytes.take 4 ≠ elfMagic then Except.error VError.NotElf
       else if bytes.getD 4 0 ≠ 2 then Except.error VError.Not64Bit
       else if leU16 bytes 18 ≠ 0x3E then Except.error (VError.WrongArch (leU16 bytes 18))
       else if leU16 bytes 16 ≠ 2 ∧ leU16 bytes 16 ≠ 3 then
         Except.error (VError.NotExecutableType (leU16 bytes 16))
       else Except.ok ()) := by
  by_cases h : bytes.length < 64
  · simp [elfChecks, h]
  · have h64 : 64 ≤ bytes.length := Nat.le_of_not_lt h
    have hslice : listSlice bytes 0 4 = some (bytes.take 4) := by
      have : 4 ≤ bytes.length := le_trans (by norm_num) h64
      simp [listSlice, this]
    have g4 := getElem?_eq_some_getD (l := bytes) (i := 4) (lt_of_lt_of_le (by norm_num) h64)
    have g16 := getElem?_eq_some_getD (l := bytes) (i := 16) (lt_of_lt_of_le (by norm_num) h64)
    have g17 := getElem?_eq_some_getD (l := bytes) (i := 17) (lt_of_lt_of_le (by norm_num) h64)
    have g18 := getElem?_eq_some_getD (l := bytes) (i := 18) (lt_of_lt_of_le (by norm_num) h64)
    have g19 := getElem?_eq_some_getD (l := bytes) (i := 19) (lt_of_lt_of_le (by norm_num) h64)
    simp only [elfChecks, h, if_neg, hslice, g4, g16, g17, g18, g19, leU16]
    by_cases hm : bytes.take 4 = elfMagic <;>
      simp [hm, h, apply_ite Option.some]

/-- The LD_PRELOAD composition of `main` (source lines 163-169): start
from the artifact path; when the inherited variable is readable
(`env::var` returned `Ok`, modelled `some`) and non-empty, append
`":" ++ existing` after the new path. -/
def composePreload (libspy : String) (existing : Option String) : String :=
  match existing with
  | some x => if x = "" then libspy else libspy ++ ":" ++ x
  | none => libspy

/-- One `Command::env(k, v)` call: override or add one variable of the child's
environment map. -/
def setVar (env : String → Option String) (k v : String) : String → Option String :=
  fun q => if q = k then some v else env q

/-- The child environment of the spawn (source lines 171-183): the
inherited environment with the four `.env` calls applied — LD_PRELOAD,
TAURI_SPY_AUTO_OPEN (the auto-open flag as "1"/"0", line 172) and the
two WebKit workaround variables set to "1". -/
def composeChildEnv (inherited : String → Option String) (preload : String)
    (autoOpen : Bool) : String → Option String :=
  setVar
    (setVar
      (setVar
        (setVar inherited "LD_PRELOAD" preload)
        "TAURI_SPY_AUTO_OPEN" (if autoOpen then "1" else "0"))
      "WEBKIT_DISABLE_COMPOSITING_MODE" "1")
    "WEBKIT_DISABLE_DMABUF_RENDERER" "1"

/-- What the locator's OS calls observe: `exeDir` is the parent
directory of `env::current_exe()` when that call succeeds, `pathExistsP`
is `Path::exists`, `canonicalizeF` is `Path::canonicalize` with the OS
error already rendered to a string by `map_err`. -/
structure LocWorld where
  exeDir : Option String
  pathExistsP : String → Bool
  canonicalizeF : String → Except String String

/-- The function `find_libspy` (source lines 24-43): the candidate beside the
launcher executable first, returned as constructed; then
`../lib/libspy.so`, canonicalized; else the not-found error. -/
def find_libspy (w : LocWorld) : Except String String :=
  match w.exeDir with
  | some dir =>
    if w.pathExistsP (dir ++ "/libspy.so") then Except.ok (dir ++ "/libspy.so")
    else if w.pathExistsP (dir ++ "/../lib/libspy.so") then
      w.canonicalizeF (dir ++ "/../lib/libspy.so")
    else Except.error "Could not find libspy.so — is it built?"
  | none => Except.error "Could not find libspy.so — is it built?"

/-- Everything one run of `main` reads from the outside: the target's
observed state, the locator's world, whether `pkg-config --exists
webkit2gtk-4.1` succeeds, the inherited LD_PRELOAD value, the CLI
flags/arguments, the inherited environment, and what
`Command::status()` returns for the spawn — `none` for a spawn error,
`some none` for a child killed without an exit code (signal), and
`some (some c)` for a normal exit with code `c`. -/
structure World where
  target : FileState
  loc : LocWorld
  webkitAvailable : Bool
  ldPreload : Option String
  autoOpen : Bool
  args : List String
  inheritedEnv : String → Option String
  spawnResult : Option (Option Nat)

/-- The observable outcome of one run of `main`: the process exit code,
whether a child was spawned, the classified validation error if
validation failed, whether artifact location failed, the resolved
artifact, the composed child environment and argument vector when they
were built, and whether the WebKitGTK advisory warning was printed. -/
structure MainResult where
  exitCode : Nat
  childSpawned : Bool
  validationError : Option VError
  locationFailed : Bool
  artifact : Option String
  childEnv : Option (String → Option String)
  childArgs : Option (List String)
  webkitWarning : Bool

/-- The exit-status translation of `main` (source lines 185-203):
`status.success()` (code = Some 0) gives SUCCESS; otherwise
`status.code().unwrap_or(1)` cast `as u8` gives the exit code. -/
def launcherExit (st : Option Nat) : Nat :=
  match st with
  | some 0 => 0
  | some c => c % 256
  | none => 1

/-- The function `main` (source lines 117-204) over the observed world:
validate, warn about WebKitGTK, locate the artifact, compose the
preload value and environment, spawn and translate the status.  `none`
models a panic escaping `validate_target`'s header parse. -/
def mainRun (w : World) : Option MainResult :=
  match validate_target w.target with
  | none => none
  | some (Except.error e) =>
      some ⟨1, false, some e, false, none, none, none, false⟩
  | some (Except.ok ()) =>
      let warn := !w.webkitAvailable
      match find_libspy w.loc with
      | Except.error _ =>
          some ⟨1, false, none, true, none, none, none, warn⟩
      | Except.ok libspyPath =>
          let preload := composePreload libspyPath w.ldPreload
          let envC := composeChildEnv w.inheritedEnv preload w.autoOpen
          match w.spawnResult with
          | none =>
              some ⟨1, false, none, false, some libspyPath, some envC, some w.args, warn⟩
          | some st =>
              some ⟨launcherExit st, true, none, false, some libspyPath, some envC,
                    some w.args, warn⟩

/-- Forget the advisory-warning bit of a `MainResult`: everything the
WebKitGTK capability check is allowed to influence. -/
def eraseWarn (r : MainResult) : MainResult :=
  { r with webkitWarning := false }

/-! ### Concrete fixtures -/

/-- A 64-byte buffer that passes every header check: ELF magic, class 2,
object type 2 at offset 16, machine 0x3E at offset 18. -/
def elfOkBytes : List Nat :=
  [0x7F, 0x45, 0x4C, 0x46, 2] ++ List.replicate 11 0 ++ [2, 0, 0x3E, 0] ++ List.replicate 44 0

/-- An existing regular file with mode 0o755 and valid header bytes. -/
def targetOK : FileState := ⟨true, true, some 493, some elfOkBytes⟩

/-- The same observed file state with the mode written differently. -/
def targetOK2 : FileState := ⟨true, true, some (480 + 13), some elfOkBytes⟩

/-- A missing target path. -/
def targetMissing : FileState := ⟨false, false, none, none⟩

/-- A locator world with the artifact beside the launcher in `/opt`. -/
def locOK : LocWorld :=
  ⟨some "/opt", fun p => p == "/opt/libspy.so", fun p => Except.ok p⟩

/-- A locator world whose same-directory candidate exists but is not a
fixpoint of canonicalization (e.g. the build directory is reached
through a symlink). -/
def locUncanonical : LocWorld :=
  ⟨some "/build", fun p => p == "/build/libspy.so", fun p => Except.ok ("/real" ++ p)⟩

/-- A small inherited environment. -/
def baseEnv : String → Option String :=
  fun q => if q = "HOME" then some "/root" else none

/-- A fully successful run: valid target, artifact beside the launcher,
child exits with code 42. -/
def worldOK : World :=
  ⟨targetOK, locOK, true, none, false, [], baseEnv, some (some 42)⟩

/-- A run whose target path does not exist. -/
def worldMissing : World :=
  ⟨targetMissing, locOK, true, none, false, [], baseEnv, none⟩

/-! ### Claim theorems -/

/-- Claim C1: `validate_target` performs its checks in exactly the
spec's fail-fast order, returning the error of the first violated
check — existence, regular file, executable bit, length-and-magic,
class byte 2, LE16 machine field 0x3E at offset 18 (observed value
reported), LE16 object-type field in 2 or 3 at offset 16 — and a
buffer passing all checks is classified launchable.  Stated as
refinement: on any observed state whose metadata and read succeed, the
code equals the spec's transcription `inspectorSpec`. -/
theorem c1_inspector_check_order (ex isF : Bool) (mode : Nat) (bytes : List Nat) :
    validate_target ⟨ex, isF, some mode, some bytes⟩ =
      some (inspectorSpec ex isF mode bytes) := by
  cases ex <;> cases isF <;>
    by_cases hmode : Nat.land mode 73 = 0 <;>
      simp [validate_target, inspectorSpec, elfChecks_eq, hmode]

/-- Claim C2: with an inherited non-empty LD_PRELOAD value X the
composed preload value is exactly "P:X" (new value first, old value
verbatim, separator ':'), and with no inherited variable it is P
alone. -/
theorem c2_preload_composition (p x : String) (hx : x ≠ "") :
    composePreload p (some x) = p ++ ":" ++ x ∧ composePreload p none = p := by
  constructor
  · simp [composePreload, hx]
  · rfl

theorem c2_preload_composition_witness :
    composePreload "/a/libspy.so" (some "X") = "/a/libspy.so" ++ ":" ++ "X" ∧
    composePreload "/a/libspy.so" none = "/a/libspy.so" :=
  c2_preload_composition "/a/libspy.so" "X" (by decide)

/-- Claim C3: when the spawn succeeds and the child exits normally with
code c (c < 256, as Unix exit codes are), the launcher's exit status is
c; when the child's exit code is not retrievable (killed by a signal),
the launcher exits with the fixed failure status 1.  `Option.getD st 1`
is c in the first case and 1 in the second. -/
theorem c3_exit_status_propagation (w : World) (st : Option Nat)
    (hv : validate_target w.target = some (Except.ok ()))
    (p : String) (hf : find_libspy w.loc = Except.ok p)
    (hs : w.spawnResult = some st)
    (hb : ∀ c, st = some c → c < 256) :
    (mainRun w).map MainResult.exitCode = some (st.getD 1) ∧
    (mainRun w).map MainResult.childSpawned = some true := by
  have hl : launcherExit st = st.getD 1 := by
    cases st with
    | none => rfl
    | some c =>
      cases c with
      | zero => rfl
      | succ k => simp [launcherExit, Nat.mod_eq_of_lt (hb (k + 1) rfl)]
  unfold mainRun
  rw [hv, hf, hs]
  simp [hl]

theorem c3_exit_status_propagation_witness :
    (mainRun worldOK).map MainResult.exitCode = some ((some 42 : Option Nat).getD 1) ∧
    (mainRun worldOK).map MainResult.childSpawned = some true :=
  c3_exit_status_propagation worldOK (some 42) rfl "/opt/libspy.so" rfl rfl
    (fun c h => by cases h; decide)

/-- Claim C4: when validation fails with any classified error, or when
validation passes but the artifact locator fails, the launcher exits
with code 1, no child is spawned, and no child environment is even
composed. -/
theorem c4_failure_aborts_before_spawn (w : World) :
    (∀ e, validate_target w.target = some (Except.error e) →
      mainRun w = some ⟨1, false, some e, false, none, none, none, false⟩) ∧
    (validate_target w.target = some (Except.ok ()) →
      ∀ m, find_libspy w.loc = Except.error m →
        mainRun w = some ⟨1, false, none, true, none, none, none, !w.webkitAvailable⟩) := by
  constructor
  · intro e he
    unfold mainRun
    rw [he]
  · intro hv m hm
    unfold mainRun
    rw [hv, hm]

theorem c4_failure_aborts_before_spawn_witness :
    mainRun worldMissing =
      some ⟨1, false, some VError.TargetNotFound, false, none, none, none, false⟩ :=
  (c4_failure_aborts_before_spawn worldMissing).1 VError.TargetNotFound rfl

/-- Claim C5 counterexample: `find_libspy` returns the same-directory
candidate without canonicalizing it, so a successfully returned
location need not be a fixpoint of the world's canonicalization — the
claim's "every successfully returned ArtifactLocation is a resolved,
canonicalized absolute path" fails at this concrete world. -/
theorem c5_locator_counterexample :
    find_libspy locUncanonical = Except.ok "/build/libspy.so" ∧
    LocWorld.canonicalizeF locUncanonical "/build/libspy.so" =
      Except.ok "/real/build/libspy.so" ∧
    "/real/build/libspy.so" ≠ "/build/libspy.so" :=
  ⟨rfl, rfl, by decide⟩

/-- Claim C5 as amended: the locator returns the same-directory
candidate as constructed (not canonicalized) if it exists, otherwise
the canonicalization of `../lib/libspy.so` if that exists, otherwise
the not-found error. -/
theorem c5_locator_search_order (w : LocWorld) (dir : String)
    (hd : w.exeDir = some dir) :
    (w.pathExistsP (dir ++ "/libspy.so") = true →
      find_libspy w = Except.ok (dir ++ "/libspy.so")) ∧
    (w.pathExistsP (dir ++ "/libspy.so") = false →
      w.pathExistsP (dir ++ "/../lib/libspy.so") = true →
      find_libspy w = w.canonicalizeF (dir ++ "/../lib/libspy.so")) ∧
    (w.pathExistsP (dir ++ "/libspy.so") = false →
      w.pathExistsP (dir ++ "/../lib/libspy.so") = false →
      find_libspy w = Except.error "Could not find libspy.so — is it built?") := by
  refine ⟨fun h1 => ?_, fun h1 h2 => ?_, fun h1 h2 => ?_⟩ <;>
    simp [find_libspy, hd, h1]
  · simp [h2]
  · simp [h2]

theorem c5_locator_search_order_witness :
    find_libspy locOK = Except.ok ("/opt" ++ "/libspy.so") :=
  (c5_locator_search_order locOK "/opt" rfl).1 rfl

/-- Claim C6: the composed child environment holds the composed preload
value under LD_PRELOAD, "1"/"0" under TAURI_SPY_AUTO_OPEN according to
the auto-open flag, "1" under both WebKit workaround variables, and
agrees with the inherited environment on every other variable; and the
environment `mainRun` hands the spawn is exactly this composition. -/
theorem c6_child_environment :
    (∀ (env : String → Option String) (p : String) (a : Bool),
      composeChildEnv env p a "LD_PRELOAD" = some p ∧
      composeChildEnv env p a "TAURI_SPY_AUTO_OPEN" = some (if a then "1" else "0") ∧
      composeChildEnv env p a "WEBKIT_DISABLE_COMPOSITING_MODE" = some "1" ∧
      composeChildEnv env p a "WEBKIT_DISABLE_DMABUF_RENDERER" = some "1" ∧
      (∀ k, k ≠ "LD_PRELOAD" → k ≠ "TAURI_SPY_AUTO_OPEN" →
        k ≠ "WEBKIT_DISABLE_COMPOSITING_MODE" → k ≠ "WEBKIT_DISABLE_DMABUF_RENDERER" →
        composeChildEnv env p a k = env k)) ∧
    (∀ (w : World) (p : String),
      validate_target w.target = some (Except.ok ()) →
      find_libspy w.loc = Except.ok p →
      (mainRun w).map MainResult.childEnv =
        some (some (composeChildEnv w.inheritedEnv
          (composePreload p w.ldPreload) w.autoOpen))) := by
  constructor
  · intro env p a
    refine ⟨?_, ?_, ?_, ?_, fun k h1 h2 h3 h4 => ?_⟩
    · simp [composeChildEnv, setVar]
    · simp [composeChildEnv, setVar]
    · simp [composeChildEnv, setVar]
    · simp [composeChildEnv, setVar]
    · simp [composeChildEnv, setVar, h1, h2, h3, h4]
  · intro w p hv hf
    unfold mainRun
    rw [hv, hf]
    rcases hs : w.spawnResult with _ | st <;> simp [hs]

theorem c6_child_environment_witness :
    composeChildEnv baseEnv "/a/libspy.so" false "HOME" = baseEnv "HOME" :=
  (c6_child_environment.1 baseEnv "/a/libspy.so" false).2.2.2.2 "HOME"
    (by decide) (by decide) (by decide) (by decide)

/-- Claim C7: the WebKitGTK capability check never alters the
pipeline's control flow or result — two runs identical except for the
check's outcome produce the same result up to the advisory-warning
bit. -/
theorem c7_webkit_check_noninterference (w : World) (b1 b2 : Bool) :
    (mainRun { w with webkitAvailable := b1 }).map eraseWarn =
    (mainRun { w with webkitAvailable := b2 }).map eraseWarn := by
  obtain ⟨t, l, wa, lp, ao, ar, ie, sr⟩ := w
  unfold mainRun
  rcases hv : validate_target t with _ | e
  · rfl
  · rcases e with e | u
    · rfl
    · cases u
      rcases hf : find_libspy l with m | q <;>
        rcases hs : sr with _ | st <;>
          simp [eraseWarn]

/-- Claim C8: the inspector is deterministic over the observed
existence, file-kind, permission and content state — equal
observations yield equal outcomes — and running the whole pipeline
twice on an unchanged world yields the same outcome both times. -/
theorem c8_validation_deterministic :
    (∀ f g : FileState, f.pathExists = g.pathExists → f.isFile = g.isFile →
      f.metadataMode = g.metadataMode → f.contents = g.contents →
      validate_target f = validate_target g) ∧
    (∀ w : World, mainRun w = mainRun w) := by
  constructor
  · intro f g h1 h2 h3 h4
    obtain ⟨fe, ff, fm, fc⟩ := f
    obtain ⟨ge, gf, gm, gc⟩ := g
    simp only at h1 h2 h3 h4
    subst h1 h2 h3 h4
    rfl
  · intro w
    rfl

theorem c8_validation_deterministic_witness :
    validate_target targetOK = validate_target targetOK2 :=
  c8_validation_deterministic.1 targetOK targetOK2 rfl rfl rfl rfl

/-- Claim C9: the inspector's header parse is total and panic-free on
every observed state — every fixed-offset read happens after the
length-at-least-64 check, so `validate_target` never reaches an
out-of-bounds index (modelled `none`). -/
theorem c9_header_parse_total : ∀ f : FileState, (validate_target f).isSome = true := by
  intro f
  obtain ⟨ex, isF, mm, cc⟩ := f
  cases ex <;> cases isF <;> cases mm <;> (try cases cc) <;>
    simp [validate_target, elfChecks_eq] <;>
    split <;> simp

/-- Claim C10: an inherited LD_PRELOAD that is present but empty is
treated exactly like an absent one — the composed value is the
artifact path alone, no separator appended. -/
theorem c10_empty_preload_like_absent (p : String) :
    composePreload p (some "") = p := by
  simp [composePreload]

end TauriSpy
